import Mathlib

set_option maxRecDepth 10000

/-!  Verification of the AI-news digest mailer (`scripts/send_email.py`):
a shallow embedding of its snapshot loading (`load_news`), digest rendering
(`build_email` and `_esc`) and SMTP delivery (`send_email`, `main`) logic,
together with theorems settling the testable properties of its
specification. -/

/-- Untyped JSON-like value, the shape `json.loads` produces: objects are
association lists (keys unique, as in a Python dict), arrays are lists. -/
inductive JValue where
  | null : JValue
  | bool : Bool → JValue
  | num  : Int → JValue
  | str  : String → JValue
  | arr  : List JValue → JValue
  | obj  : List (String × JValue) → JValue

/-- `dict.get(k)` on a parsed JSON object (keys are unique in a dict). -/
def jGet (kvs : List (String × JValue)) (k : String) : Option JValue :=
  kvs.lookup k

/-- Body of the `try` block of `load_news` for one parsed candidate file:
`items = data.get("items", data if isinstance(data, list) else [])` followed
by `return items[:max_items]`.  Returns `none` exactly when the Python code
raises and falls through to the next candidate: `.get` on a non-dict root
raises `AttributeError` (note that when `data` is a list, `data.get` itself
raises before the default argument could matter), and `len`/`[:n]` on an
`items` value that is neither a sequence raises `TypeError`. -/
def pyLoadItems (data : JValue) (maxItems : Nat) : Option JValue :=
  match data with
  | .obj kvs =>
      match (jGet kvs "items").getD (JValue.arr []) with
      | .arr l => some (.arr (l.take maxItems))
      | .str s => some (.str ⟨s.data.take maxItems⟩)
      | _ => none
  | _ => none

/-- The data directory as `load_news` observes it: for a candidate file name,
`none` = the file does not exist; `some none` = it exists but reading or
`json.loads` raises; `some (some v)` = it exists and parses to `v`. -/
def FileSys : Type := String → Option (Option JValue)

/-- The fixed candidate list tried by `load_news`, in order. -/
def newsCandidates : List String := ["latest-24h.json", "latest.json", "snapshot.json"]

/-- The candidate loop of `load_news`: first candidate that exists, parses and
survives the item-extraction slice wins; any exception moves to the next
candidate; exhaustion returns `[]`. -/
def loadNewsGo (fs : FileSys) (maxItems : Nat) : List String → JValue
  | [] => .arr []
  | f :: rest =>
    match fs f with
    | none => loadNewsGo fs maxItems rest
    | some none => loadNewsGo fs maxItems rest
    | some (some data) =>
      match pyLoadItems data maxItems with
      | some items => items
      | none => loadNewsGo fs maxItems rest

/-- `load_news(data_dir, max_items)`: the record-extraction step of the
pipeline. -/
def load_news (fs : FileSys) (maxItems : Nat) : JValue :=
  loadNewsGo fs maxItems newsCandidates

/-- Number of content records in `load_news`'s result (its elements when it
is a list; any other value carries no records). -/
def recCount : JValue → Nat
  | .arr l => l.length
  | _ => 0

/-- From the spec, for comparison with the code (§4.1): a mapping node is a
terminal content record when it has a title-like key (`title`) and a
link-like key (`url` or `link`). -/
def isTerminalRec (kvs : List (String × JValue)) : Bool :=
  (jGet kvs "title").isSome && ((jGet kvs "url").isSome || (jGet kvs "link").isSome)

mutual
/-- From the spec, for comparison with the code (§8 "Extraction totality"):
the number of terminal record-shaped mappings in a nested snapshot value, at
arbitrary nesting depth, not recursing into matched terminals. -/
def specCountRecords : JValue → Nat
  | .obj kvs => if isTerminalRec kvs then 1 else specCountRecordsKVs kvs
  | .arr l => specCountRecordsList l
  | _ => 0

/-- Record count summed over the values of a container mapping. -/
def specCountRecordsKVs : List (String × JValue) → Nat
  | [] => 0
  | (_, v) :: t => specCountRecords v + specCountRecordsKVs t

/-- Record count summed over the elements of a sequence. -/
def specCountRecordsList : List JValue → Nat
  | [] => 0
  | v :: t => specCountRecords v + specCountRecordsList t
end

/-- A well-formed terminal record node used by several concrete inputs. -/
def recA : JValue := .obj [("title", .str "A"), ("url", .str "u1")]

/-- A nested snapshot root holding two terminal records at depth three. -/
def rootNestedDeep : JValue :=
  .obj [("a", .obj [("b", .arr [recA, .obj [("title", .str "B"), ("link", .str "u2")]])])]

/-- Data directory whose only candidate file parses to `rootNestedDeep`. -/
def fsNested : FileSys :=
  fun f => if f = "latest-24h.json" then some (some rootNestedDeep) else none

/-- The snapshot root named by the spec's source-inference property. -/
def rootTechCrunch : JValue := .obj [("TechCrunch", .arr [recA])]

/-- Data directory whose only candidate file parses to `rootTechCrunch`. -/
def fsTechCrunch : FileSys :=
  fun f => if f = "latest-24h.json" then some (some rootTechCrunch) else none

/-- Data directory whose only candidate file is a JSON array of one
well-formed record. -/
def fsListRoot : FileSys :=
  fun f => if f = "latest-24h.json" then some (some (.arr [recA])) else none

/-- Data directory where the first candidate is a JSON array (which
`load_news` chokes on) and the second is a mapping with an `items` list. -/
def fsListThenObj : FileSys :=
  fun f =>
    if f = "latest-24h.json" then some (some (.arr [recA]))
    else if f = "latest.json" then
      some (some (.obj [("items", .arr [.obj [("title", .str "B"), ("url", .str "u2")]])]))
    else none

/-- A content record as consumed by `build_email`: a parsed JSON object with
string field values, accessed like a Python dict (keys unique). -/
abbrev Item : Type := List (String × String)

/-- `item.get(k)` — `none` models Python's `None`. -/
def getS (it : Item) (k : String) : Option String := it.lookup k

/-- `item.get(k, d)`. -/
def getD (it : Item) (k d : String) : String := (getS it k).getD d

/-- Python `a or b` over an optional string left operand: `None` and `""`
are falsy, in which case the right operand is the result. -/
def pyOr (a : Option String) (b : String) : String :=
  match a with
  | some s => if s = "" then b else s
  | none => b

/-- Whether `pat` matches at the head of `s`. -/
def headMatch : List Char → List Char → Bool
  | [], _ => true
  | _ :: _, [] => false
  | a :: as, b :: bs => a == b && headMatch as bs

/-- Whether `pat` occurs contiguously inside `s` (executable form). -/
def hasSub : List Char → List Char → Bool
  | pat, [] => pat.isEmpty
  | pat, s@(_ :: t) => headMatch pat s || hasSub pat t

/-- Python's substring test `pat in s`. -/
def strContains (s pat : String) : Bool := hasSub pat.data s.data

/-- Python `s.startswith(pat)`. -/
def strStarts (s pat : String) : Bool := headMatch pat.data s.data

/-- Python `s.lower()`, character by character (its arguments here are
ASCII). -/
def strLower (s : String) : String := ⟨s.data.map Char.toLower⟩

/-- Python `s.strip()`: drop whitespace from both ends. -/
def strTrim (s : String) : String :=
  ⟨((s.data.dropWhile Char.isWhitespace).reverse.dropWhile Char.isWhitespace).reverse⟩

/-- Expansion of one character under `_esc`'s four replacement passes. -/
def escChar (c : Char) : List Char :=
  if c = '&' then "&amp;".data
  else if c = '<' then "&lt;".data
  else if c = '>' then "&gt;".data
  else if c = '"' then "&quot;".data
  else [c]

/-- `_esc`: HTML escaping by four sequential `str.replace` passes, `&` first,
then `<`, `>`, `"` (on a string argument the preceding `str(text or "")` is
the identity, since `"" or ""` is `""`).  Because the first pass rewrites
every original `&` and none of the inserted entity texts contains `<`, `>`
or `"` — and their `&` was inserted after the `&` pass — the four passes
expand each original character independently, which is what this definition
computes. -/
def _esc (text : String) : String :=
  ⟨text.data.foldr (fun c acc => escChar c ++ acc) []⟩

/-- Title rendered for a news item:
`_esc(item.get("title_zh") or item.get("title") or "无标题")`. -/
def newsTitle (it : Item) : String :=
  _esc (pyOr (getS it "title_zh") (pyOr (getS it "title") "无标题"))

/-- URL extracted for any record in all three sections:
`item.get("url", "#")` — `"#"` is the missing-URL sentinel. -/
def urlOf (it : Item) : String := getD it "url" "#"

/-- Source label rendered for a news item:
`_esc(item.get("source") or item.get("site_name") or "")`. -/
def srcOf (it : Item) : String :=
  _esc (pyOr (getS it "source") (pyOr (getS it "site_name") ""))

/-- The optional source badge of a news row (present when `src` is truthy). -/
def newsBadge (it : Item) : String :=
  if srcOf it = "" then ""
  else "<div style='color:#999;font-size:11px;margin-top:3px;'>📰 " ++ srcOf it ++ "</div>"

/-- One HTML table row of the news section (the f-string appended to
`news_rows`), for 1-based index `i`. -/
def newsRow (i : Nat) (it : Item) : String :=
  "\n        <tr><td style=\"padding:10px 0;border-bottom:1px solid #f0f0f0;\">\n          <a href=\"" ++ urlOf it ++ "\" style=\"color:#1a73e8;font-weight:600;font-size:14px;text-decoration:none;\">" ++ Nat.repr i ++ ". " ++ newsTitle it ++ "</a>\n          " ++ newsBadge it ++ "\n        </td></tr>"

/-- One plain-text line of the news section (appended to `news_plain`). -/
def newsPlainLine (i : Nat) (it : Item) : String :=
  Nat.repr i ++ ". " ++ pyOr (getS it "title_zh") (getD it "title" "") ++ "\n   " ++ urlOf it ++ "\n\n"

/-- The `for i, item in enumerate(news_items, 1)` accumulation of HTML rows. -/
def newsRowsAux : Nat → List Item → String
  | _, [] => ""
  | i, it :: rest => newsRow i it ++ newsRowsAux (i + 1) rest

/-- The matching accumulation of plain-text news lines. -/
def newsPlainAux : Nat → List Item → String
  | _, [] => ""
  | i, it :: rest => newsPlainLine i it ++ newsPlainAux (i + 1) rest

/-- `news_rows` after the loop. -/
def newsRowsStr (news : List Item) : String := newsRowsAux 1 news

/-- `news_plain` after the loop. -/
def newsPlainStr (news : List Item) : String := newsPlainAux 1 news

/-- `news_rows` after the `if not news_rows:` placeholder substitution. -/
def newsRowsFinal (news : List Item) : String :=
  if newsRowsStr news = "" then
    "<tr><td style='color:#999;padding:10px 0;'>今日暂无新闻数据</td></tr>"
  else newsRowsStr news

/-- `news_plain` after the same placeholder substitution (the condition is on
`news_rows`, exactly as in the code). -/
def newsPlainFinal (news : List Item) : String :=
  if newsRowsStr news = "" then "今日暂无新闻数据\n" else newsPlainStr news

/-- The keys a Twitter item is indexed by without a default
(`item["expert_name"]` etc. raise `KeyError` when absent); theorems about
the Twitter section assume them present. -/
def twKeysOk (it : Item) : Bool :=
  (getS it "expert_name").isSome && (getS it "expert_role").isSome && (getS it "content").isSome

/-- `zh = _esc(item.get("content_zh", ""))`. -/
def twZh (it : Item) : String := _esc (getD it "content_zh" "")

/-- `show_zh = zh and not zh.startswith("[英]")`. -/
def twShowZh (it : Item) : Bool :=
  (twZh it != "") && !(strStarts (twZh it) "[英]")

/-- The optional translated-content div of a Twitter row. -/
def twZhDiv (it : Item) : String :=
  if twShowZh it then
    "<div style='color:#555;font-size:13px;line-height:1.6;margin-left:40px;margin-top:4px;background:#f0f7ff;padding:6px 8px;border-radius:4px;'>🇨🇳 " ++ twZh it ++ "</div>"
  else ""

/-- The optional source-link div of a Twitter row (shown when the URL is not
the sentinel `"#"`); the URL is interpolated without escaping. -/
def twLinkDiv (it : Item) : String :=
  if urlOf it = "#" then ""
  else "<div style='margin:6px 0 0 40px;'><a href='" ++ urlOf it ++ "' style='color:#1da1f2;font-size:12px;'>查看原文 →</a></div>"

/-- One HTML table row of the Twitter section. -/
def twRow (it : Item) : String :=
  "\n        <tr><td style=\"padding:12px 0;border-bottom:1px solid #e8f4fd;\">\n          <div style=\"display:flex;align-items:center;margin-bottom:6px;\">\n            <span style=\"background:#1da1f2;color:#fff;border-radius:50%;width:32px;height:32px;display:inline-flex;align-items:center;justify-content:center;font-size:14px;margin-right:8px;\">🐦</span>\n            <div>\n              <span style=\"font-weight:700;color:#1da1f2;font-size:14px;\">" ++ _esc (getD it "expert_name" "") ++ "</span>\n              <span style=\"color:#999;font-size:12px;margin-left:6px;\">" ++ _esc (getD it "expert_role" "") ++ "</span>\n            </div>\n          </div>\n          <div style=\"color:#333;font-size:13px;line-height:1.6;margin-left:40px;\">" ++ _esc (getD it "content" "") ++ "</div>\n          " ++ twZhDiv it ++ "\n          " ++ twLinkDiv it ++ "\n        </td></tr>"

/-- One plain-text block of the Twitter section (raw, unescaped fields). -/
def twPlainBlock (it : Item) : String :=
  "🐦 " ++ getD it "expert_name" "" ++ " (" ++ getD it "expert_role" "" ++ ")\n" ++ "   " ++ getD it "content" "" ++ "\n" ++ (if urlOf it = "#" then "" else "   " ++ urlOf it ++ "\n") ++ "\n"

/-- `tw_rows` after the loop (appends in list order). -/
def twRowsStr (tw : List Item) : String := String.join (tw.map twRow)

/-- `tw_plain` after the loop. -/
def twPlainStr (tw : List Item) : String := String.join (tw.map twPlainBlock)

/-- The Twitter-section HTML placeholder. -/
def twPlaceholderHtml : String :=
  "<tr><td style=\"color:#999;padding:10px 0;font-size:13px;\">\n            今日 Twitter 专家动态暂未获取到。<br>\n            <small>（Twitter RSS 源不稳定，如持续无内容可考虑配置 Twitter API）</small>\n          </td></tr>"

/-- `tw_rows` after the `if not tw_rows:` placeholder substitution. -/
def twRowsFinal (tw : List Item) : String :=
  if twRowsStr tw = "" then twPlaceholderHtml else twRowsStr tw

/-- `tw_plain` after the same substitution. -/
def twPlainFinal (tw : List Item) : String :=
  if twRowsStr tw = "" then "今日 Twitter 专家动态暂未获取。\n" else twPlainStr tw

/-- The keys a YouTube item is indexed by without a default. -/
def ytKeysOk (it : Item) : Bool :=
  (getS it "channel_name").isSome && (getS it "channel_desc").isSome && (getS it "title").isSome

/-- `title_zh = _esc(item.get("title_zh", ""))`. -/
def ytZh (it : Item) : String := _esc (getD it "title_zh" "")

/-- `show_zh = title_zh and not title_zh.startswith("[英]")`. -/
def ytShowZh (it : Item) : Bool :=
  (ytZh it != "") && !(strStarts (ytZh it) "[英]")

/-- The optional translated-title div of a YouTube row. -/
def ytZhDiv (it : Item) : String :=
  if ytShowZh it then
    "<div style='color:#555;font-size:13px;margin-top:4px;background:#fff5f5;padding:6px 8px;border-radius:4px;'>🇨🇳 " ++ ytZh it ++ "</div>"
  else ""

/-- One HTML table row of the YouTube section. -/
def ytRow (it : Item) : String :=
  "\n        <tr><td style=\"padding:12px 0;border-bottom:1px solid #fff0f0;\">\n          <div style=\"margin-bottom:6px;\">\n            <span style=\"background:#ff0000;color:#fff;border-radius:4px;padding:2px 6px;font-size:11px;margin-right:6px;\">▶ YouTube</span>\n            <span style=\"font-weight:700;color:#ff0000;font-size:13px;\">" ++ _esc (getD it "channel_name" "") ++ "</span>\n            <span style=\"color:#999;font-size:12px;margin-left:6px;\">" ++ _esc (getD it "channel_desc" "") ++ "</span>\n          </div>\n          <a href=\"" ++ urlOf it ++ "\" style=\"color:#333;font-weight:600;font-size:14px;text-decoration:none;\">" ++ _esc (getD it "title" "") ++ "</a>\n          " ++ ytZhDiv it ++ "\n        </td></tr>"

/-- One plain-text block of the YouTube section. -/
def ytPlainBlock (it : Item) : String :=
  "▶ " ++ getD it "channel_name" "" ++ " - " ++ getD it "title" "" ++ "\n   " ++ urlOf it ++ "\n\n"

/-- `yt_rows` after the loop. -/
def ytRowsStr (yt : List Item) : String := String.join (yt.map ytRow)

/-- `yt_plain` after the loop. -/
def ytPlainStr (yt : List Item) : String := String.join (yt.map ytPlainBlock)

/-- `yt_rows` after the `if not yt_rows:` placeholder substitution. -/
def ytRowsFinal (yt : List Item) : String :=
  if ytRowsStr yt = "" then
    "<tr><td style='color:#999;padding:10px 0;'>今日 YouTube 视频暂未获取到。</td></tr>"
  else ytRowsStr yt

/-- `yt_plain` after the same substitution. -/
def ytPlainFinal (yt : List Item) : String :=
  if ytRowsStr yt = "" then "今日 YouTube 视频暂未获取。\n" else ytPlainStr yt

/-- The names of the `TWITTER_EXPERTS` configuration entries, the only part
of that table `build_email` interpolates. -/
def twitterExpertNames : List String :=
  ["Yann LeCun", "Andrej Karpathy", "Sam Altman", "Demis Hassabis", "Ilya Sutskever",
   "Andrew Ng", "Fei-Fei Li", "Kai-Fu Lee 李开复", "Jim Fan", "Emad Mostaque"]

/-- The names of the `YOUTUBE_CHANNELS` configuration entries. -/
def youtubeChannelNames : List String :=
  ["Andrej Karpathy", "DeepMind", "OpenAI", "Andrew Ng", "Lex Fridman",
   "Two Minute Papers", "Yannic Kilcher"]

/-- `" · ".join(e["name"] for e in TWITTER_EXPERTS)`. -/
def expertsJoined : String := String.intercalate " · " twitterExpertNames

/-- `" · ".join(c["name"] for c in YOUTUBE_CHANNELS)`. -/
def channelsJoined : String := String.intercalate " · " youtubeChannelNames

/-- The per-section item-count tag `({n} 条)` that `build_email` interpolates
into both the HTML and the plain-text representation. -/
def countTag (n : Nat) : String := "(" ++ Nat.repr n ++ " 条)"

/-- Document head and header banner of the HTML template, up to the end of
the dated banner div (`date_str` and `time_str` are the formatted clock
values, passed explicitly here). -/
def htmlHead (dateStr timeStr : String) : String :=
  "<!DOCTYPE html>\n<html lang=\"zh\">\n<head>\n<meta charset=\"utf-8\">\n<meta name=\"viewport\" content=\"width=device-width,initial-scale=1\">\n<title>AI 新闻雷达日报</title>\n</head>\n<body style=\"margin:0;padding:0;background:#f0f2f5;font-family:'PingFang SC','Microsoft YaHei',Arial,sans-serif;\">\n<div style=\"max-width:700px;margin:24px auto;background:#fff;border-radius:12px;overflow:hidden;box-shadow:0 2px 16px rgba(0,0,0,.1);\">\n\n  <!-- 头部 -->\n  <div style=\"background:linear-gradient(135deg,#1a73e8 0%,#0d47a1 100%);padding:32px;text-align:center;\">\n    <div style=\"font-size:32px;margin-bottom:8px;\">🤖</div>\n    <div style=\"color:#fff;font-size:24px;font-weight:700;letter-spacing:2px;\">AI 新闻雷达日报</div>\n    <div style=\"color:rgba(255,255,255,.75);font-size:14px;margin-top:8px;\">" ++ dateStr ++ " &nbsp;·&nbsp; " ++ timeStr ++ " 北京时间 &nbsp;·&nbsp; 每日精选</div>\n  </div>\n"

/-- News-section template text before the item count. -/
def newsSecA : String :=
  "\n  <!-- 今日 AI 新闻 -->\n  <div style=\"padding:28px 32px;\">\n    <div style=\"font-size:18px;font-weight:700;color:#222;margin-bottom:16px;padding-bottom:10px;border-bottom:3px solid #1a73e8;\">\n      📰 今日 AI 新闻 <span style=\"font-size:14px;color:#999;font-weight:400;\">"

/-- News-section template text between the item count and the rows table. -/
def newsSecB : String :=
  "</span>\n    </div>\n    <table width=\"100%\" cellpadding=\"0\" cellspacing=\"0\">"

/-- Template text closing each section's rows table. -/
def secClose : String := "</table>\n  </div>\n"

/-- The news section of the HTML document. -/
def newsSectionHtml (news : List Item) : String :=
  newsSecA ++ countTag news.length ++ newsSecB ++ newsRowsFinal news ++ secClose

/-- Twitter-section template text before the item count. -/
def twSecA : String :=
  "\n  <!-- Twitter 专家动态 -->\n  <div style=\"padding:28px 32px;background:#f7fbff;\">\n    <div style=\"font-size:18px;font-weight:700;color:#222;margin-bottom:4px;padding-bottom:10px;border-bottom:3px solid #1da1f2;\">\n      🐦 AI 专家 Twitter 动态 <span style=\"font-size:14px;color:#999;font-weight:400;\">"

/-- Twitter-section template text between the item count and the rows table,
including the tracked-experts line. -/
def twSecB : String :=
  "</span>\n    </div>\n    <div style=\"color:#999;font-size:12px;margin-bottom:14px;\">\n      追踪：" ++ expertsJoined ++ "\n    </div>\n    <table width=\"100%\" cellpadding=\"0\" cellspacing=\"0\">"

/-- The Twitter section of the HTML document. -/
def twSectionHtml (tw : List Item) : String :=
  twSecA ++ countTag tw.length ++ twSecB ++ twRowsFinal tw ++ secClose

/-- YouTube-section template text before the item count. -/
def ytSecA : String :=
  "\n  <!-- YouTube 视频 -->\n  <div style=\"padding:28px 32px;\">\n    <div style=\"font-size:18px;font-weight:700;color:#222;margin-bottom:4px;padding-bottom:10px;border-bottom:3px solid #ff0000;\">\n      ▶ AI YouTube 频道 <span style=\"font-size:14px;color:#999;font-weight:400;\">"

/-- YouTube-section template text between the item count and the rows table,
including the channel list line. -/
def ytSecB : String :=
  "</span>\n    </div>\n    <div style=\"color:#999;font-size:12px;margin-bottom:14px;\">\n      频道：" ++ channelsJoined ++ "\n    </div>\n    <table width=\"100%\" cellpadding=\"0\" cellspacing=\"0\">"

/-- The YouTube section of the HTML document. -/
def ytSectionHtml (yt : List Item) : String :=
  ytSecA ++ countTag yt.length ++ ytSecB ++ ytRowsFinal yt ++ secClose

/-- Footer of the HTML template. -/
def htmlFoot : String :=
  "\n  <!-- 底部 -->\n  <div style=\"background:#f5f5f5;padding:20px 32px;text-align:center;\">\n    <div style=\"color:#999;font-size:12px;line-height:1.8;\">\n      由 <strong>AI News Radar</strong> 自动生成 &nbsp;·&nbsp; GitHub Actions &nbsp;·&nbsp; 每日 07:30 北京时间<br>\n      新闻来源：多个 AI 权威媒体 RSS &nbsp;·&nbsp; 专家动态实时抓取\n    </div>\n  </div>\n\n</div>\n</body>\n</html>"

/-- The rich (HTML) representation produced by `build_email`. -/
def emailHtml (dateStr timeStr : String) (news tw yt : List Item) : String :=
  htmlHead dateStr timeStr ++ newsSectionHtml news ++ twSectionHtml tw ++ ytSectionHtml yt ++ htmlFoot

/-- `"="*55`, the separator rule of the plain-text representation. -/
def sep55 : String := ⟨List.replicate 55 '='⟩

/-- The plain-text representation produced by `build_email`. -/
def emailPlain (dateStr : String) (news tw yt : List Item) : String :=
  "AI 新闻雷达日报 — " ++ dateStr ++ "\n" ++ sep55 ++ "\n\n【今日 AI 新闻 " ++ countTag news.length ++ "】\n" ++ newsPlainFinal news ++ "\n" ++ sep55 ++ "\n\n【AI 专家 Twitter 动态 " ++ countTag tw.length ++ "】\n" ++ twPlainFinal tw ++ "\n" ++ sep55 ++ "\n\n【AI YouTube 频道 " ++ countTag yt.length ++ "】\n" ++ ytPlainFinal yt ++ "\n" ++ sep55 ++ "\nAI News Radar | 每日 07:30 北京时间自动发送\n"

/-- `build_email(news_items, tw_items, yt_items)` returning `(html, plain)`;
the wall-clock date and time strings are explicit inputs of the embedding. -/
def build_email (dateStr timeStr : String) (news tw yt : List Item) : String × String :=
  (emailHtml dateStr timeStr news tw yt, emailPlain dateStr news tw yt)

/-- Python `int(s)` on a decimal string: optional surrounding whitespace, an
optional sign, then at least one digit; anything else raises `ValueError`
(`none` here).  Underscore digit grouping, which `int` also accepts, plays
no role in this development and is omitted. -/
def parseIntPy (s : String) : Option Int :=
  let t := strTrim s
  let sg : Int := match t.data with
    | '-' :: _ => -1
    | _ => 1
  let ds : List Char := match t.data with
    | '-' :: r => r
    | '+' :: r => r
    | r => r
  if ds.isEmpty then none
  else if ds.all Char.isDigit then
    some (sg * ((ds.foldl (fun a c => a * 10 + (c.toNat - '0'.toNat)) 0 : Nat) : Int))
  else none

/-- The process environment as `os.environ.get` sees it. -/
def Env : Type := String → Option String

/-- `os.environ.get(k, d)`. -/
def envGetD (env : Env) (k d : String) : String := (env k).getD d

/-- The transport world of one run: the outcome each SMTP strategy would have
if attempted — `none` = the strategy completes transmission, `some e` = it
raises an exception rendered as `e`.  One outcome per strategy suffices
because each strategy is attempted at most once. -/
structure World where
  starttls : Option String
  ssl : Option String

/-- Observable outcome of a `send_email` call that returns: its boolean
result, the strategies attempted in order, the failure reasons recorded in
order, and the missing-configuration names reported (empty if none). -/
structure SendTrace where
  ok : Bool
  attempted : List String
  failures : List String
  missing : List String

/-- Result of running `send_email`: either an uncaught exception or a
returned `SendTrace`. -/
inductive SendOutcome where
  | crash : String → SendOutcome
  | done : SendTrace → SendOutcome

/-- The dict `{"SMTP_SERVER": server, "SENDER_EMAIL": user, "SMTP_PASSWORD":
password, "RECEIVER_EMAIL": receiver}` in insertion order. -/
def requiredPairs (env : Env) : List (String × String) :=
  [("SMTP_SERVER", envGetD env "SMTP_SERVER" ""),
   ("SENDER_EMAIL", envGetD env "SENDER_EMAIL" ""),
   ("SMTP_PASSWORD", envGetD env "SMTP_PASSWORD" ""),
   ("RECEIVER_EMAIL", envGetD env "RECEIVER_EMAIL" "")]

/-- `missing = [k for k, v in {...}.items() if not v]`. -/
def missingList (env : Env) : List String :=
  ((requiredPairs env).filter (fun p => p.2 == "")).map (fun p => p.1)

/-- The strategy cascade of `send_email` once the configuration checks pass:
try STARTTLS on the configured port; on any exception record the reason and
fall through to SSL on port 465; stop at the first success; report overall
failure when both raise. -/
def strategyPhase (w : World) : SendOutcome :=
  match w.starttls with
  | none => .done ⟨true, ["STARTTLS"], [], []⟩
  | some e1 =>
    match w.ssl with
    | none => .done ⟨true, ["STARTTLS", "SSL465"], [e1], []⟩
    | some e2 => .done ⟨false, ["STARTTLS", "SSL465"], [e1, e2], []⟩

/-- `send_email(html, plain)`: reads the five settings (the port conversion
`int(os.environ.get("SMTP_PORT", "587"))` runs before the missing-field
check and propagates `ValueError` on a non-numeric value), aborts with the
missing-field report when any required setting is falsy, and otherwise runs
the strategy cascade.  The message body plays no role in the control flow
modelled here. -/
def send_email (env : Env) (w : World) : SendOutcome :=
  match parseIntPy (envGetD env "SMTP_PORT" "587") with
  | none => .crash "ValueError"
  | some _ =>
    if envGetD env "SMTP_SERVER" "" = "" ∨ envGetD env "SENDER_EMAIL" "" = "" ∨
        envGetD env "SMTP_PASSWORD" "" = "" ∨ envGetD env "RECEIVER_EMAIL" "" = "" then
      .done ⟨false, [], [], missingList env⟩
    else strategyPhase w

/-- `main`'s exit status: `sys.exit(0 if ok else 1)`; an exception that
escapes `send_email` also terminates the interpreter with status 1. -/
def mainExit (env : Env) (w : World) : Nat :=
  match send_email env w with
  | .crash _ => 1
  | .done t => if t.ok then 0 else 1

/-- Whether the configuration phase passes (the port string parses and all
four required settings are truthy), so the strategy cascade is reached. -/
def canAttempt (env : Env) : Bool :=
  (parseIntPy (envGetD env "SMTP_PORT" "587")).isSome &&
    !(envGetD env "SMTP_SERVER" "" == "") && !(envGetD env "SENDER_EMAIL" "" == "") &&
    !(envGetD env "SMTP_PASSWORD" "" == "") && !(envGetD env "RECEIVER_EMAIL" "" == "")

/-- Whether some strategy, when reached in the cascade, completes: STARTTLS
is always reached first; SSL only after a STARTTLS exception. -/
def anySuccess (env : Env) (w : World) : Bool :=
  canAttempt env && (w.starttls.isNone || w.ssl.isNone)

/-- `pat` occurs contiguously inside `s`. -/
def occursIn (pat s : String) : Prop :=
  ∃ a b, s.data = a ++ (pat.data ++ b)

/-- Modelled from the spec: the social/microblog vocabulary of the
Importance Classifier (§4.2), which is absent from the code under `src/`
(only its caller `main` appears there); `"twitter"` covers the platform
name and mirror naming patterns such as `twitter-mirror`. -/
def socialVocab : List String := ["twitter", "nitter"]

/-- Modelled from the spec: the video-platform vocabulary of §4.2. -/
def videoVocab : List String := ["youtube"]

/-- Modelled from the spec: the major lab/vendor vocabulary of §4.2. -/
def vendorVocab : List String := ["openai", "deepmind", "anthropic", "google", "meta", "nvidia", "microsoft"]

/-- Modelled from the spec: the Importance Classifier (§4.2), absent from
the code under `src/`; assigns a tier by first-matching rule over the
lowercased concatenation of source and url: 5 social, 4 video, 3 vendor,
1 default.  A pure function of its two string arguments. -/
def importance (source url : String) : Nat :=
  let text := strLower (source ++ url)
  if socialVocab.any (fun w => strContains text w) then 5
  else if videoVocab.any (fun w => strContains text w) then 4
  else if vendorVocab.any (fun w => strContains text w) then 3
  else 1

/-- From the spec's words (§4.3), for comparison with the code: the tier of
a record, read through the classifier from its own source and url fields. -/
def specTier (it : Item) : Nat := importance (getD it "source" "") (urlOf it)

/-- The `published` field of a record, `""` when absent. -/
def pubOf (it : Item) : String := getD it "published" ""

/-- Lexicographic order on char lists (Python string comparison). -/
def charsLe : List Char → List Char → Bool
  | [], _ => true
  | _ :: _, [] => false
  | a :: as, b :: bs => if a = b then charsLe as bs else decide (a < b)

/-- Python `a <= b` on strings. -/
def strLe (a b : String) : Bool := charsLe a.data b.data

/-- From the spec's words: record `a` may precede record `b` under
(tier descending, published string descending). -/
def specBefore (a b : Item) : Bool :=
  (specTier b < specTier a) || ((specTier a == specTier b) && strLe (pubOf b) (pubOf a))

/-- From the spec's words: ordered insertion for the (tier desc, published
desc) sort; an empty `published` is the lexically smallest string and so
sorts last. -/
def specInsert (x : Item) : List Item → List Item
  | [] => [x]
  | y :: t => if specBefore x y then x :: y :: t else y :: specInsert x t

/-- From the spec's words: the single global sort applied before
partitioning into sections. -/
def specSort : List Item → List Item
  | [] => []
  | x :: t => specInsert x (specSort t)

/-- The record iteration sequence of one section of `build_email`: each
section loop (`for item in ...`) visits exactly the elements of its input
list, in list order, rendering one entry per element. -/
def sectionSeq (items : List Item) : List Item := items

/-- Concatenation of the three rendered sections' record sequences in the
configured order: news, then Twitter, then YouTube. -/
def sectionsConcat (news tw yt : List Item) : List Item :=
  sectionSeq news ++ sectionSeq tw ++ sectionSeq yt

lemma occursIn_appendL {p s : String} (t : String) (h : occursIn p s) : occursIn p (s ++ t) := by
  obtain ⟨a, b, hab⟩ := h
  exact ⟨a, b ++ t.data, by simp [String.data_append, hab, List.append_assoc]⟩

lemma occursIn_appendR {p s : String} (t : String) (h : occursIn p s) : occursIn p (t ++ s) := by
  obtain ⟨a, b, hab⟩ := h
  exact ⟨t.data ++ a, b, by simp [String.data_append, hab, List.append_assoc]⟩

lemma occursIn_self (p : String) : occursIn p p := ⟨[], [], by simp⟩

lemma headMatch_exists : ∀ {pat s : List Char}, headMatch pat s = true → ∃ r, s = pat ++ r := by
  intro pat
  induction pat with
  | nil => exact fun {s} _ => ⟨s, rfl⟩
  | cons a as ih =>
    intro s h
    cases s with
    | nil => simp [headMatch] at h
    | cons b bs =>
      simp only [headMatch, Bool.and_eq_true, beq_iff_eq] at h
      obtain ⟨hab, h2⟩ := h
      obtain ⟨r, hr⟩ := ih h2
      exact ⟨r, by simp [hab, hr]⟩

lemma hasSub_occurs : ∀ {pat s : List Char}, hasSub pat s = true → ∃ a b, s = a ++ (pat ++ b) := by
  intro pat s
  induction s with
  | nil =>
    intro h
    simp only [hasSub, List.isEmpty_iff] at h
    exact ⟨[], [], by simp [h]⟩
  | cons c t ih =>
    intro h
    simp only [hasSub, Bool.or_eq_true] at h
    rcases h with h | h
    · obtain ⟨r, hr⟩ := headMatch_exists h
      exact ⟨[], r, by simp [hr]⟩
    · obtain ⟨a, b, hab⟩ := ih h
      exact ⟨c :: a, b, by simp [hab]⟩

lemma occursIn_of_contains {s p : String} (h : strContains s p = true) : occursIn p s :=
  hasSub_occurs h

lemma missingList_eq_nil_iff (env : Env) :
    missingList env = [] ↔
      (envGetD env "SMTP_SERVER" "" ≠ "" ∧ envGetD env "SENDER_EMAIL" "" ≠ "" ∧
       envGetD env "SMTP_PASSWORD" "" ≠ "" ∧ envGetD env "RECEIVER_EMAIL" "" ≠ "") := by
  by_cases h1 : envGetD env "SMTP_SERVER" "" = "" <;>
  by_cases h2 : envGetD env "SENDER_EMAIL" "" = "" <;>
  by_cases h3 : envGetD env "SMTP_PASSWORD" "" = "" <;>
  by_cases h4 : envGetD env "RECEIVER_EMAIL" "" = "" <;>
  simp [missingList, requiredPairs, h1, h2, h3, h4]

lemma send_email_config_fail (env : Env) (w : World) (p : Int)
    (hp : parseIntPy (envGetD env "SMTP_PORT" "587") = some p)
    (hc : envGetD env "SMTP_SERVER" "" = "" ∨ envGetD env "SENDER_EMAIL" "" = "" ∨
          envGetD env "SMTP_PASSWORD" "" = "" ∨ envGetD env "RECEIVER_EMAIL" "" = "") :
    send_email env w = SendOutcome.done ⟨false, [], [], missingList env⟩ := by
  simp only [send_email, hp]
  rw [if_pos hc]

lemma send_email_attempt (env : Env) (w : World) (p : Int)
    (hp : parseIntPy (envGetD env "SMTP_PORT" "587") = some p)
    (h1 : envGetD env "SMTP_SERVER" "" ≠ "") (h2 : envGetD env "SENDER_EMAIL" "" ≠ "")
    (h3 : envGetD env "SMTP_PASSWORD" "" ≠ "") (h4 : envGetD env "RECEIVER_EMAIL" "" ≠ "") :
    send_email env w = strategyPhase w := by
  simp only [send_email, hp]
  rw [if_neg (by simp [h1, h2, h3, h4])]

lemma send_email_crash (env : Env) (w : World)
    (hp : parseIntPy (envGetD env "SMTP_PORT" "587") = none) :
    send_email env w = SendOutcome.crash "ValueError" := by
  simp only [send_email, hp]

lemma canAttempt_true {env : Env} (h : canAttempt env = true) :
    (∃ p, parseIntPy (envGetD env "SMTP_PORT" "587") = some p) ∧
    envGetD env "SMTP_SERVER" "" ≠ "" ∧ envGetD env "SENDER_EMAIL" "" ≠ "" ∧
    envGetD env "SMTP_PASSWORD" "" ≠ "" ∧ envGetD env "RECEIVER_EMAIL" "" ≠ "" := by
  simp only [canAttempt, Bool.and_eq_true, Bool.not_eq_true', beq_eq_false_iff_ne,
    Option.isSome_iff_exists] at h
  exact ⟨h.1.1.1.1, h.1.1.1.2, h.1.1.2, h.1.2, h.2⟩

lemma canAttempt_false_exit {env : Env} (w : World) (h : canAttempt env = false) :
    mainExit env w = 1 := by
  cases hp : parseIntPy (envGetD env "SMTP_PORT" "587") with
  | none => simp [mainExit, send_email_crash env w hp]
  | some p =>
    have hc : envGetD env "SMTP_SERVER" "" = "" ∨ envGetD env "SENDER_EMAIL" "" = "" ∨
        envGetD env "SMTP_PASSWORD" "" = "" ∨ envGetD env "RECEIVER_EMAIL" "" = "" := by
      by_contra hcn
      push_neg at hcn
      have hca : canAttempt env = true := by
        simp [canAttempt, hp, Bool.not_eq_true', beq_eq_false_iff_ne,
          hcn.1, hcn.2.1, hcn.2.2.1, hcn.2.2.2]
      simp [hca] at h
    simp [mainExit, send_email_config_fail env w p hp hc]

/-- Flat-items data directory used as a witness input. -/
def fsFlatW : FileSys :=
  fun f => if f = "latest-24h.json" then some (some (.obj [("items", .arr [recA])])) else none

/-- Environment with only a malformed `SMTP_PORT` set. -/
def envBadPort : Env := fun k => if k = "SMTP_PORT" then some "off" else none

/-- Environment with nothing set. -/
def envEmpty : Env := fun _ => none

/-- Fully configured delivery environment. -/
def envFull : Env := fun k =>
  if k = "SMTP_SERVER" then some "smtp.example.com"
  else if k = "SENDER_EMAIL" then some "alice@example.com"
  else if k = "SMTP_PASSWORD" then some "pw"
  else if k = "RECEIVER_EMAIL" then some "bob@example.com"
  else none

/-- World in which both strategies raise. -/
def wBoth : World := ⟨some "connection refused", some "connection refused"⟩

/-- World in which STARTTLS completes. -/
def wOk : World := ⟨none, none⟩

/-- An older Twitter-source record (published 2020). -/
def twOlder : Item :=
  [("expert_name", "N1"), ("expert_role", "R"), ("content", "c1"),
   ("published", "2020"), ("source", "twitter"), ("url", "https://t.co/1")]

/-- A newer Twitter-source record (published 2021). -/
def twNewer : Item :=
  [("expert_name", "N2"), ("expert_role", "R"), ("content", "c2"),
   ("published", "2021"), ("source", "twitter"), ("url", "https://t.co/2")]

/-- News item whose title, url and source all contain HTML metacharacters. -/
def itemNX : Item := [("title", "A\"B"), ("url", "C\"D<e>"), ("source", "S<1>")]

/-- Twitter item whose url contains a double quote. -/
def itemTX : Item := [("expert_name", "N"), ("expert_role", "R"), ("content", "hi"), ("url", "C\"D")]

/-- YouTube item whose url contains a double quote. -/
def itemYX : Item := [("channel_name", "Ch"), ("channel_desc", "D"), ("title", "T"), ("url", "C\"D")]

/-- C1, counterexample: a well-formed nested snapshot holding exactly two
terminal record-shaped mappings at depth three, for which the extraction
step (`load_news`) returns zero records, not two — it never recurses into
nested containers. -/
theorem extraction_totality_cex :
    specCountRecords rootNestedDeep = 2 ∧ recCount (load_news fsNested 20) = 0 := by
  constructor <;> rfl

/-- C1, amended: `load_news` does not traverse nesting at all; it returns
exactly the elements of the top-level `items` sequence of a mapping root,
capped at `max_items` — so it returns N records exactly when the N terminal
records form that flat `items` list with N ≤ max_items. -/
theorem load_news_flat_items (fs : FileSys) (kvs : List (String × JValue))
    (l : List JValue) (maxItems : Nat)
    (hfs : fs "latest-24h.json" = some (some (.obj kvs)))
    (hit : jGet kvs "items" = some (.arr l)) :
    load_news fs maxItems = JValue.arr (l.take maxItems) ∧
      (l.length ≤ maxItems → recCount (load_news fs maxItems) = l.length) := by
  have h1 : load_news fs maxItems = JValue.arr (l.take maxItems) := by
    simp [load_news, newsCandidates, loadNewsGo, hfs, pyLoadItems, hit]
  refine ⟨h1, fun hle => ?_⟩
  rw [h1]
  simp [recCount, List.length_take, Nat.min_eq_right hle]

/-- Witness for `load_news_flat_items` at a one-record `items` list. -/
theorem load_news_flat_items_w :
    load_news fsFlatW 20 = JValue.arr [recA] ∧ recCount (load_news fsFlatW 20) = 1 := by
  have h := load_news_flat_items fsFlatW [("items", JValue.arr [recA])] [recA] 20 rfl rfl
  exact ⟨by simpa using h.1, by simpa using h.2 (by decide)⟩

/-- C2, counterexample: for the root `{"TechCrunch": [{"title":"A","url":"u1"}]}`
(one terminal record), extraction emits zero records rather than one record
with source `"TechCrunch"`. -/
theorem source_inference_cex :
    specCountRecords rootTechCrunch = 1 ∧ recCount (load_news fsTechCrunch 20) = 0 := by
  constructor <;> rfl

/-- C2, amended: for that root, extraction emits no record at all (the root
has no `items` key); mapping keys are never used as source labels — the
rendered source comes only from a record's own `source`/`site_name` fields,
which is empty for the record `{"title":"A","url":"u1"}`. -/
theorem source_key_ignored :
    load_news fsTechCrunch 20 = JValue.arr [] ∧
      srcOf [("title", "A"), ("url", "u1")] = "" := by
  constructor <;> rfl

/-- C3, counterexample: two same-tier records arriving oldest-first are
rendered in input order, so the concatenation of the rendered sections
differs from the (tier desc, published desc) sorted order. -/
theorem sort_partition_cex :
    sectionsConcat [] [twOlder, twNewer] [] ≠
      specSort (([] : List Item) ++ [twOlder, twNewer] ++ []) := by
  decide

/-- C3, amended: `build_email` performs no sorting and no truncation at all:
each section renders its input list in the given order, so the concatenation
of the rendered sections equals `news ++ tw ++ yt` exactly; any truncation
upstream (`items[:max_items]` in `load_news`) takes a prefix and never
reorders. -/
theorem render_preserves_order (news tw yt : List Item) :
    sectionsConcat news tw yt = news ++ tw ++ yt ∧
      ∀ m, (sectionsConcat news tw yt).take m <+: sectionsConcat news tw yt :=
  ⟨rfl, fun m => List.take_prefix m _⟩

/-- C4: the spec-modelled Importance Classifier assigns tier 5 to a
`twitter-mirror` source, tier 4 to a YouTube url, tier 3 to an
`openai blog` source and tier 1 to an unrelated source, by a pure
first-matching rule on the lowercased source+url; tier assignment commutes
with any reordering of the record list. -/
theorem classify_importance_spec :
    importance "twitter-mirror" "" = 5 ∧
    importance "" "https://www.youtube.com/watch" = 4 ∧
    importance "openai blog" "" = 3 ∧
    importance "Ars Technica" "https://arstechnica.com/ai" = 1 ∧
    ∀ (l₁ l₂ : List Item), l₁.Perm l₂ →
      (l₁.map (fun it => importance (getD it "source" "") (urlOf it))).Perm
        (l₂.map (fun it => importance (getD it "source" "") (urlOf it))) :=
  ⟨by decide, by decide, by decide, by decide, fun l₁ l₂ h => h.map _⟩

/-- Witness for `classify_importance_spec` at a concrete permutation. -/
theorem classify_importance_spec_w :
    importance "twitter-mirror" "" = 5 ∧
    (([twOlder] : List Item).map (fun it => importance (getD it "source" "") (urlOf it))).Perm
      ([twOlder].map (fun it => importance (getD it "source" "") (urlOf it))) :=
  ⟨classify_importance_spec.1,
   classify_importance_spec.2.2.2.2 [twOlder] [twOlder] (List.Perm.refl _)⟩

/-- C5, counterexample: a record node with a `link` field but no `url` field
extracts the sentinel `"#"`, not the link value. -/
theorem synonym_fallback_cex :
    urlOf [("title", "A"), ("link", "u1")] = "#" := rfl

/-- C5, amended: `build_email` consults only the `url` key; whenever it is
absent — whether or not a `link` field is present — the extracted URL is the
sentinel `"#"`. -/
theorem url_key_only (it : Item) (h : getS it "url" = none) : urlOf it = "#" := by
  simp [urlOf, getD, h]

/-- Witness for `url_key_only` at a link-only record. -/
theorem url_key_only_w : urlOf [("link", "u1")] = "#" :=
  url_key_only [("link", "u1")] rfl

/-- C6: for any inputs (whose Twitter and YouTube items carry the fields the
loops index unconditionally), the HTML and the plain-text representation
produced by `build_email` both report, per section, the item count
`({n} 条)` with the same `n`, equal to the length of that section's input
list. -/
theorem representation_parity (dateStr timeStr : String) (news tw yt : List Item)
    (htw : tw.all twKeysOk = true) (hyt : yt.all ytKeysOk = true) :
    (occursIn (countTag news.length) (build_email dateStr timeStr news tw yt).1 ∧
     occursIn (countTag news.length) (build_email dateStr timeStr news tw yt).2) ∧
    (occursIn (countTag tw.length) (build_email dateStr timeStr news tw yt).1 ∧
     occursIn (countTag tw.length) (build_email dateStr timeStr news tw yt).2) ∧
    (occursIn (countTag yt.length) (build_email dateStr timeStr news tw yt).1 ∧
     occursIn (countTag yt.length) (build_email dateStr timeStr news tw yt).2) := by
  refine ⟨⟨?_, ?_⟩, ⟨?_, ?_⟩, ⟨?_, ?_⟩⟩
  · refine ⟨(htmlHead dateStr timeStr ++ newsSecA).data,
      (newsSecB ++ newsRowsFinal news ++ secClose ++ twSectionHtml tw ++
        ytSectionHtml yt ++ htmlFoot).data, ?_⟩
    simp [build_email, emailHtml, newsSectionHtml, String.data_append, List.append_assoc]
  · refine ⟨("AI 新闻雷达日报 — " ++ dateStr ++ "\n" ++ sep55 ++ "\n\n【今日 AI 新闻 ").data,
      ("】\n" ++ newsPlainFinal news ++ "\n" ++ sep55 ++ "\n\n【AI 专家 Twitter 动态 " ++
        countTag tw.length ++ "】\n" ++ twPlainFinal tw ++ "\n" ++ sep55 ++
        "\n\n【AI YouTube 频道 " ++ countTag yt.length ++ "】\n" ++ ytPlainFinal yt ++ "\n" ++
        sep55 ++ "\nAI News Radar | 每日 07:30 北京时间自动发送\n").data, ?_⟩
    simp [build_email, emailPlain, String.data_append, List.append_assoc]
  · refine ⟨(htmlHead dateStr timeStr ++ newsSectionHtml news ++ twSecA).data,
      (twSecB ++ twRowsFinal tw ++ secClose ++ ytSectionHtml yt ++ htmlFoot).data, ?_⟩
    simp [build_email, emailHtml, twSectionHtml, String.data_append, List.append_assoc]
  · refine ⟨("AI 新闻雷达日报 — " ++ dateStr ++ "\n" ++ sep55 ++ "\n\n【今日 AI 新闻 " ++
      countTag news.length ++ "】\n" ++ newsPlainFinal news ++ "\n" ++ sep55 ++
      "\n\n【AI 专家 Twitter 动态 ").data,
      ("】\n" ++ twPlainFinal tw ++ "\n" ++ sep55 ++ "\n\n【AI YouTube 频道 " ++
        countTag yt.length ++ "】\n" ++ ytPlainFinal yt ++ "\n" ++ sep55 ++
        "\nAI News Radar | 每日 07:30 北京时间自动发送\n").data, ?_⟩
    simp [build_email, emailPlain, String.data_append, List.append_assoc]
  · refine ⟨(htmlHead dateStr timeStr ++ newsSectionHtml news ++ twSectionHtml tw ++ ytSecA).data,
      (ytSecB ++ ytRowsFinal yt ++ secClose ++ htmlFoot).data, ?_⟩
    simp [build_email, emailHtml, ytSectionHtml, String.data_append, List.append_assoc]
  · refine ⟨("AI 新闻雷达日报 — " ++ dateStr ++ "\n" ++ sep55 ++ "\n\n【今日 AI 新闻 " ++
      countTag news.length ++ "】\n" ++ newsPlainFinal news ++ "\n" ++ sep55 ++
      "\n\n【AI 专家 Twitter 动态 " ++ countTag tw.length ++ "】\n" ++ twPlainFinal tw ++ "\n" ++
      sep55 ++ "\n\n【AI YouTube 频道 ").data,
      ("】\n" ++ ytPlainFinal yt ++ "\n" ++ sep55 ++
        "\nAI News Radar | 每日 07:30 北京时间自动发送\n").data, ?_⟩
    simp [build_email, emailPlain, String.data_append, List.append_assoc]

/-- Witness for `representation_parity` at empty section inputs. -/
theorem representation_parity_w :
    (([] : List Item).all twKeysOk = true) ∧
    occursIn (countTag ([] : List Item).length) (build_email "d" "t" [] [] []).2 :=
  ⟨rfl, (representation_parity "d" "t" [] [] [] rfl rfl).1.2⟩

/-- C7, counterexample: with every required delivery setting absent but
`SMTP_PORT` set to a non-numeric string, `send_email` raises `ValueError`
at the `int(...)` conversion instead of returning failure with the
missing-field report. -/
theorem config_missing_cex :
    envBadPort "SMTP_SERVER" = none ∧
    send_email envBadPort wBoth = SendOutcome.crash "ValueError" := by
  constructor <;> rfl

/-- C7, amended: provided the `SMTP_PORT` value (default `"587"`) parses as
an integer, if any required delivery setting is unset or empty then
`send_email` returns failure without attempting any connection and reports
exactly the names of the falsy required fields, in declaration order. -/
theorem send_email_reports_missing (env : Env) (w : World)
    (hp : (parseIntPy (envGetD env "SMTP_PORT" "587")).isSome = true)
    (hm : missingList env ≠ []) :
    send_email env w = SendOutcome.done ⟨false, [], [], missingList env⟩ := by
  obtain ⟨p, hpe⟩ := Option.isSome_iff_exists.mp hp
  have hc : envGetD env "SMTP_SERVER" "" = "" ∨ envGetD env "SENDER_EMAIL" "" = "" ∨
      envGetD env "SMTP_PASSWORD" "" = "" ∨ envGetD env "RECEIVER_EMAIL" "" = "" := by
    by_contra hcn
    push_neg at hcn
    exact hm ((missingList_eq_nil_iff env).mpr ⟨hcn.1, hcn.2.1, hcn.2.2.1, hcn.2.2.2⟩)
  exact send_email_config_fail env w p hpe hc

/-- Witness for `send_email_reports_missing` at the empty environment. -/
theorem send_email_reports_missing_w :
    missingList envEmpty ≠ [] ∧
    send_email envEmpty wBoth = SendOutcome.done ⟨false, [], [], missingList envEmpty⟩ :=
  ⟨by decide, send_email_reports_missing envEmpty wBoth (by decide) (by decide)⟩

/-- C8, the code bug: a candidate snapshot that is a top-level JSON array
of well-formed records deserializes, yet `load_news` skips it (the dead
`data if isinstance(data, list) else []` default shows list roots were
meant to be returned, but `data.get` on a list raises first) and falls to
the next candidate or to the empty record set; rendering then still
proceeds with the per-section no-data placeholders. -/
theorem load_news_list_root_bug :
    load_news fsListRoot 20 = JValue.arr [] ∧
    load_news fsListThenObj 20 = JValue.arr [.obj [("title", .str "B"), ("url", .str "u2")]] ∧
    newsRowsFinal [] = "<tr><td style='color:#999;padding:10px 0;'>今日暂无新闻数据</td></tr>" ∧
    newsPlainFinal [] = "今日暂无新闻数据\n" ∧
    twRowsFinal [] = twPlaceholderHtml ∧
    ytRowsFinal [] = "<tr><td style='color:#999;padding:10px 0;'>今日 YouTube 视频暂未获取到。</td></tr>" := by
  refine ⟨rfl, rfl, rfl, rfl, rfl, rfl⟩

/-- C9: `send_email` attempts STARTTLS then SSL in that fixed order, stops
at the first strategy that completes, records one failure reason per failed
strategy in attempt order without retrying, and `main` exits with status 0
exactly when some strategy succeeded. -/
theorem send_email_fallback_order (env : Env) (w : World) :
    (mainExit env w = 0 ↔ anySuccess env w = true) ∧
    (canAttempt env = true → w.starttls = none →
      send_email env w = SendOutcome.done ⟨true, ["STARTTLS"], [], []⟩) ∧
    (∀ e1, canAttempt env = true → w.starttls = some e1 → w.ssl = none →
      send_email env w = SendOutcome.done ⟨true, ["STARTTLS", "SSL465"], [e1], []⟩) ∧
    (∀ e1 e2, canAttempt env = true → w.starttls = some e1 → w.ssl = some e2 →
      send_email env w = SendOutcome.done ⟨false, ["STARTTLS", "SSL465"], [e1, e2], []⟩) := by
  have hmain : mainExit env w = 0 ↔ anySuccess env w = true := by
    by_cases hca : canAttempt env = true
    · obtain ⟨⟨p, hp⟩, h1, h2, h3, h4⟩ := canAttempt_true hca
      have hse := send_email_attempt env w p hp h1 h2 h3 h4
      cases hst : w.starttls with
      | none => simp [mainExit, hse, strategyPhase, hst, anySuccess, hca]
      | some e1 =>
        cases hss : w.ssl with
        | none => simp [mainExit, hse, strategyPhase, hst, hss, anySuccess, hca]
        | some e2 => simp [mainExit, hse, strategyPhase, hst, hss, anySuccess, hca]
    · have hca' : canAttempt env = false := by
        simpa using hca
      rw [canAttempt_false_exit w hca']
      simp [anySuccess, hca']
  refine ⟨hmain, ?_, ?_, ?_⟩
  · intro hca hst
    obtain ⟨⟨p, hp⟩, h1, h2, h3, h4⟩ := canAttempt_true hca
    rw [send_email_attempt env w p hp h1 h2 h3 h4]
    simp [strategyPhase, hst]
  · intro e1 hca hst hss
    obtain ⟨⟨p, hp⟩, h1, h2, h3, h4⟩ := canAttempt_true hca
    rw [send_email_attempt env w p hp h1 h2 h3 h4]
    simp [strategyPhase, hst, hss]
  · intro e1 e2 hca hst hss
    obtain ⟨⟨p, hp⟩, h1, h2, h3, h4⟩ := canAttempt_true hca
    rw [send_email_attempt env w p hp h1 h2 h3 h4]
    simp [strategyPhase, hst, hss]

/-- Witness for `send_email_fallback_order`: a full configuration and a
world where STARTTLS completes. -/
theorem send_email_fallback_order_w :
    canAttempt envFull = true ∧
    send_email envFull wOk = SendOutcome.done ⟨true, ["STARTTLS"], [], []⟩ :=
  ⟨by decide, (send_email_fallback_order envFull wOk).2.1 (by decide) rfl⟩

/-- C10: the news title and source are `_esc`-escaped while the record url
is interpolated verbatim into the href attributes of the news, Twitter and
YouTube rows, so a url containing a double quote or angle brackets reaches
the generated HTML unescaped (and its escaped form is absent). -/
theorem url_not_escaped :
    strContains (newsRowsStr [itemNX]) "href=\"C\"D<e>\"" = true ∧
    strContains (newsRowsStr [itemNX]) "C&quot;D&lt;e&gt;" = false ∧
    strContains (newsRowsStr [itemNX]) "A&quot;B" = true ∧
    strContains (newsRowsStr [itemNX]) "S&lt;1&gt;" = true ∧
    strContains (twRowsStr [itemTX]) "href='C\"D'" = true ∧
    strContains (ytRowsStr [itemYX]) "href=\"C\"D\"" = true ∧
    occursIn "C\"D<e>" (emailHtml "d" "t" [itemNX] [] []) := by
  refine ⟨by decide, by decide, by decide, by decide, by decide, by decide, ?_⟩
  have h0 : occursIn "C\"D<e>" (newsRowsStr [itemNX]) := occursIn_of_contains (by decide)
  have h1 : newsRowsFinal [itemNX] = newsRowsStr [itemNX] := by
    simp only [newsRowsFinal]
    rw [if_neg (by decide)]
  have h2 : occursIn "C\"D<e>" (newsSectionHtml [itemNX]) := by
    simp only [newsSectionHtml, h1]
    exact occursIn_appendL secClose
      (occursIn_appendR (newsSecA ++ countTag (List.length [itemNX]) ++ newsSecB) h0)
  simp only [emailHtml]
  exact occursIn_appendL htmlFoot (occursIn_appendL (ytSectionHtml [])
    (occursIn_appendL (twSectionHtml []) (occursIn_appendR (htmlHead "d" "t") h2)))
